import Mathlib

/-!
Verification development for the multi-backend database layer of the Laju
framework: the connection config resolver (`knexfile.ts`), the query-builder
service wrapper (`app/services/DB.ts`), and the native embedded-database
service (`SQLite.ts`).  Each definition is a shallow embedding of the
corresponding source function; process environment variables are modelled as
optional strings, JavaScript exceptions as `Except`, and the mutable service
state (database contents, prepared-statement cache) as explicit state passing.
-/

namespace Laju

/-- The process environment, restricted to the variables this layer reads.
Each field models `process.env.<NAME>`: `none` is an unset variable. -/
structure Env where
  DB_CLIENT : Option String
  DATABASE_URL : Option String
  DB_HOST : Option String
  DB_PORT : Option String
  DB_USER : Option String
  DB_PASSWORD : Option String
  DB_NAME : Option String
  DB_FILENAME : Option String
  DB_POOL_MIN : Option String
  DB_POOL_MAX : Option String
  DB_CONNECTION : Option String
deriving Repr, DecidableEq

/-- Environment with every variable unset. -/
def defaultEnv : Env :=
  ⟨none, none, none, none, none, none, none, none, none, none, none⟩

/-- Models the JavaScript expression `v || dflt` on an optional string:
an unset variable and the empty string are falsy and fall back to `dflt`. -/
def jsOr (v : Option String) (dflt : String) : String :=
  match v with
  | some s => if s.isEmpty then dflt else s
  | none => dflt

/-- Models JavaScript `parseInt` on base-10 numerals: leading whitespace is
skipped, an optional sign is read, then the longest prefix of decimal digits;
`none` models the `NaN` result when no digit is found.  (Hexadecimal `0x`
prefixes are not modelled; no configuration value in scope uses them.) -/
def parseIntJS (s : String) : Option Int :=
  let cs := s.data.dropWhile fun c => c = ' ' ∨ c = '\t' ∨ c = '\n' ∨ c = '\r'
  let sgnRest : Int × List Char :=
    match cs with
    | '-' :: r => (-1, r)
    | '+' :: r => (1, r)
    | r => (1, r)
  let ds := sgnRest.2.takeWhile Char.isDigit
  if ds.isEmpty then none
  else some (sgnRest.1 * (ds.foldl (fun a c => a * 10 + (c.toNat - 48)) 0 : Nat))

/-- knexfile line 19: `const DB_CLIENT = process.env.DB_CLIENT || "better-sqlite3"`. -/
def dbClientTok (e : Env) : String :=
  jsOr e.DB_CLIENT "better-sqlite3"

/-- The `Knex.StaticConnectionConfig | string` union returned by
`buildConnectionConfig`: a connection string, a host/port/user/password/database
record, or an embedded-database file path. -/
inductive ConnectionConfig where
  | url (s : String)
  | server (host : String) (port : Option Int) (user : String)
      (password : String) (database : String)
  | file (filename : String)
deriving Repr, DecidableEq

/-- knexfile `buildConnectionConfig()`: switches on the `DB_CLIENT` token.
For postgres a set, non-empty `DATABASE_URL` wins; otherwise individual
fields with their defaults; the default branch is the embedded file path. -/
def buildConnectionConfig (e : Env) : ConnectionConfig :=
  let c := dbClientTok e
  if c = "pg" ∨ c = "postgresql" then
    match e.DATABASE_URL with
    | some u =>
        if u.isEmpty then
          .server (jsOr e.DB_HOST "127.0.0.1") (parseIntJS (jsOr e.DB_PORT "5432"))
            (jsOr e.DB_USER "postgres") (jsOr e.DB_PASSWORD "")
            (jsOr e.DB_NAME "laju")
        else .url u
    | none =>
        .server (jsOr e.DB_HOST "127.0.0.1") (parseIntJS (jsOr e.DB_PORT "5432"))
          (jsOr e.DB_USER "postgres") (jsOr e.DB_PASSWORD "")
          (jsOr e.DB_NAME "laju")
  else if c = "mysql" ∨ c = "mysql2" then
    .server (jsOr e.DB_HOST "127.0.0.1") (parseIntJS (jsOr e.DB_PORT "3306"))
      (jsOr e.DB_USER "root") (jsOr e.DB_PASSWORD "")
      (jsOr e.DB_NAME "laju")
  else
    .file (jsOr e.DB_FILENAME "./data/dev.sqlite3")

/-- A `Knex.PoolConfig` value as built by the knexfile: `min`/`max` may be the
`NaN` of a failed `parseInt` (modelled `none` inside the option produced by
`parseIntJS`), and the two timeout fields are absent on the embedded branch. -/
structure PoolConfig where
  min : Option Int
  max : Option Int
  acquireTimeoutMillis : Option Nat
  idleTimeoutMillis : Option Nat
deriving Repr, DecidableEq

/-- knexfile `buildPoolConfig()`: the raw `DB_CLIENT` token (not the
normalized client) selects either the pinned single-connection embedded pool
or the env-configured pool with fixed 30000 ms timeouts. -/
def buildPoolConfig (e : Env) : PoolConfig :=
  if dbClientTok e = "better-sqlite3" ∨ dbClientTok e = "sqlite3" then
    { min := some 1, max := some 1,
      acquireTimeoutMillis := none, idleTimeoutMillis := none }
  else
    { min := parseIntJS (jsOr e.DB_POOL_MIN "0"),
      max := parseIntJS (jsOr e.DB_POOL_MAX "10"),
      acquireTimeoutMillis := some 30000, idleTimeoutMillis := some 30000 }

/-- knexfile `isSQLite()`. -/
def isSQLite (e : Env) : Bool :=
  dbClientTok e = "better-sqlite3" || dbClientTok e = "sqlite3"

/-- knexfile `getClientName()`: normalizes the `DB_CLIENT` token to one of the
three supported client identifiers; the default branch is the embedded engine. -/
def getClientName (e : Env) : String :=
  if dbClientTok e = "pg" ∨ dbClientTok e = "postgresql" then "pg"
  else if dbClientTok e = "mysql" ∨ dbClientTok e = "mysql2" then "mysql2"
  else "better-sqlite3"

/-- One stage entry of the knexfile `config` object. -/
structure KnexStageConfig where
  client : String
  connection : ConnectionConfig
  pool : Option PoolConfig
  useNullAsDefault : Bool
  migrationsDirectory : String
deriving Repr, DecidableEq

/-- The knexfile `config` object as a map from stage name to stage entry.
The `development` and `production` entries are the two textually identical
object literals of the source; `test` is the hardcoded embedded entry with
no `pool` key; any other stage name is absent (`config[stage]` is
`undefined`). -/
def knexConfig (e : Env) : String → Option KnexStageConfig := fun stage =>
  if stage = "development" then
    some { client := getClientName e, connection := buildConnectionConfig e,
           pool := some (buildPoolConfig e), useNullAsDefault := isSQLite e,
           migrationsDirectory := "./migrations" }
  else if stage = "production" then
    some { client := getClientName e, connection := buildConnectionConfig e,
           pool := some (buildPoolConfig e), useNullAsDefault := isSQLite e,
           migrationsDirectory := "./migrations" }
  else if stage = "test" then
    some { client := "better-sqlite3",
           connection := .file "./data/test.sqlite3",
           pool := none, useNullAsDefault := true,
           migrationsDirectory := "./migrations" }
  else none

/-- The state of the loaded knexfile module: the `config` object is computed
once, from the environment as it stood at module initialization, and kept as
a module-level constant. -/
structure ModuleState where
  config : String → Option KnexStageConfig

/-- Loading the knexfile module evaluates `buildConnectionConfig`,
`buildPoolConfig`, `getClientName` and `isSQLite` against the then-current
environment and freezes the result. -/
def loadKnexfile (e : Env) : ModuleState :=
  { config := knexConfig e }

/-- `DB.connection(stage)` (DB.ts line 85) reads `config[stage]` from the
already-loaded knexfile module; the environment current at call time
(`currentEnv`) plays no part in the lookup. -/
def requestStageConfig (m : ModuleState) (currentEnv : Env) (stage : String) :
    Option KnexStageConfig :=
  m.config stage

/-! ### Query-builder service: pragma application (`app/services/DB.ts`) -/

/-- The four pragma statements issued by `applyDatabaseOptimizations`,
in source order (DB.ts lines 57-63). -/
def pragmaList : List String :=
  ["PRAGMA journal_mode = WAL", "PRAGMA synchronous = NORMAL",
   "PRAGMA foreign_keys = ON", "PRAGMA busy_timeout = 5000"]

/-- The body of the single `try { ... } catch` block of
`applyDatabaseOptimizations`: issues the pragmas in order through `raw`;
a raised error stops the block and is converted into the logged warning.
Returns the list of pragmas actually passed to `raw` (the failing one
included) and the warning, if any. -/
def runPragmaBlock (raw : String → Except String Unit) :
    List String → List String × Option String
  | [] => ([], none)
  | p :: ps =>
    match raw p with
    | .ok _ =>
        let rest := runPragmaBlock raw ps
        (p :: rest.1, rest.2)
    | .error err => ([p], some ("Failed to apply SQLite PRAGMA: " ++ err))

/-- DB.ts `applyDatabaseOptimizations(instance)`: looks up
`config[process.env.DB_CONNECTION as string]` in the loaded knexfile config
(no `development` default here), and only when that entry's client is
`better-sqlite3` or `sqlite3` runs the pragma block; otherwise it makes no
`raw` call.  The single surrounding try/catch makes the function total: it
returns the issued-pragma list and the caught warning and never raises. -/
def applyDatabaseOptimizations (cfg : String → Option KnexStageConfig)
    (dbConnection : Option String) (raw : String → Except String Unit) :
    List String × Option String :=
  match dbConnection.bind cfg with
  | some entry =>
      if entry.client = "better-sqlite3" ∨ entry.client = "sqlite3" then
        runPragmaBlock raw pragmaList
      else ([], none)
  | none => ([], none)

/-! ### Native embedded-DB service (`SQLite.ts`) -/

/-- SQLite.ts line 14: `process.env.DB_CONNECTION || 'development'`. -/
def connectionType (e : Env) : String :=
  jsOr e.DB_CONNECTION "development"

/-- SQLite.ts line 16: `config[connectionType]?.client` — `none` when the
stage is unknown (`undefined` in the source). -/
def clientType (e : Env) : Option String :=
  (knexConfig e (connectionType e)).map (·.client)

/-- SQLite.ts line 19: the module-level availability gate. -/
def isSQLiteClient (e : Env) : Bool :=
  clientType e = some "better-sqlite3" || clientType e = some "sqlite3"

/-- The `isAvailable` flag of the exported service object: `true` on the real
service (line 82), `false` on the stub (line 44), chosen by the module-level
branch at lines 173-178. -/
def serviceIsAvailable (e : Env) : Bool :=
  if isSQLiteClient e then true else false

/-- JavaScript template interpolation of the possibly-`undefined`
`clientType` (an unset value prints as the string `undefined`). -/
def clientTypeStr (e : Env) : String :=
  match clientType e with
  | some s => s
  | none => "undefined"

/-- The fixed message thrown by every stub operation (SQLite.ts line 37). -/
def stubErrorMsg (e : Env) : String :=
  "SQLite service is not available with " ++ clientTypeStr e ++
    " client. Use DB service instead."

/-- A parameter value bound into a statement; the claims are independent of
the value domain, so integers stand for all SQLite value types. -/
abbrev Value := Int

/-- A row returned by the engine. -/
abbrev Row := List Value

/-- The `params` argument of `get`/`all`/`run`: either a JavaScript array
(ordered sequence, `Array.isArray` true) or a plain object, modelled as its
key/value pairs in enumeration order. -/
inductive Params where
  | arr (vs : List Value)
  | obj (kvs : List (String × Value))
deriving Repr, DecidableEq

/-- The coercion applied by `get`/`all`/`run` (SQLite.ts lines 92, 113, 134):
`Array.isArray(params) ? params : Object.values(params)`. -/
def coerceParams (p : Params) : List Value :=
  match p with
  | .arr vs => vs
  | .obj kvs => kvs.map Prod.snd

/-- A compiled prepared statement; `id` distinguishes the compilation
instances a single SQL text would get if it were prepared more than once. -/
structure Stmt where
  sql : String
  id : Nat
deriving Repr, DecidableEq

/-- The result object of `run`. -/
structure RunResult where
  changes : Nat
  lastInsertRowid : Int
deriving Repr, DecidableEq

/-- The outcome of executing one statement against the engine: the new
database contents, the result rows (`get` takes the head, `all` takes all),
and the mutation counters read by `run`. -/
structure ExecOutcome (Db : Type) where
  db : Db
  rows : List Row
  changes : Nat
  lastInsertRowid : Int

/-- The engine's statement-execution semantics, abstracting the
better-sqlite3 driver: SQL text and bound parameters transform the database
contents or raise. -/
abbrev ExecFn (Db : Type) := String → List Value → Db → Except String (ExecOutcome Db)

/-- The engine's statement-compilation semantics, abstracting
`nativeDb.prepare(sql)`: better-sqlite3 compiles eagerly against the current
database (schema), and raises on invalid SQL. -/
abbrev PrepareFn (Db : Type) := String → Db → Except String Unit

/-- The property names a plain `{}` object inherits from `Object.prototype`
(data properties, the four accessor-definition methods, and the `__proto__`
accessor).  The `statementCache` is such a plain object, so reading one of
these keys yields a truthy non-statement value even when no own entry was
ever stored under it. -/
def objectProtoKeys : List String :=
  ["constructor", "hasOwnProperty", "isPrototypeOf", "propertyIsEnumerable",
   "toLocaleString", "toString", "valueOf", "__defineGetter__",
   "__defineSetter__", "__lookupGetter__", "__lookupSetter__", "__proto__"]

/-- The error raised when the truthy value found in the cache is not a
prepared statement: calling `.get`/`.all`/`.run` on an inherited
`Object.prototype` member invokes `undefined` and throws a TypeError. -/
def typeErrorMsg : String :=
  "TypeError: not a function"

/-- The mutable state behind the real service: the database contents, the
`statementCache` record (SQLite.ts line 79, an exact-SQL-text keyed map,
modelled as an association list whose entries are only ever added), the next
fresh compilation id, and a counter of `nativeDb.prepare` invocations. -/
structure ServiceState (Db : Type) where
  db : Db
  statementCache : List (String × Stmt)
  nextStmtId : Nat
  prepares : Nat

/-- The outcome of `let stmt = statementCache[sql]; if (!stmt) {...}` plus
the subsequent method call: either a real compiled statement to execute (with
the possibly-extended state), a truthy inherited `Object.prototype` member on
which the method call will raise a TypeError, or a raised compilation error. -/
inductive StmtFetch (Db : Type) where
  | compiled (stmt : Stmt) (st : ServiceState Db)
  | notFunction (st : ServiceState Db)
  | prepareError (err : String) (st : ServiceState Db)

/-- The service state carried by every `StmtFetch` outcome. -/
@[reducible] def StmtFetch.state {Db : Type} : StmtFetch Db → ServiceState Db
  | .compiled _ st => st
  | .notFunction st => st
  | .prepareError _ st => st

/-- The shared cache step inlined identically in `get`, `all` and `run`
(SQLite.ts lines 93-97, 114-118, 135-139): `statementCache[sql]` returns the
own entry if one was stored; otherwise, for a key inherited from
`Object.prototype` it returns that truthy non-statement member, so the
`if (!stmt)` guard skips compilation and nothing is ever stored under such a
key; otherwise the value is `undefined` and `nativeDb.prepare(sql)` runs — on
success the fresh statement is stored under the exact text, on failure the
error propagates and nothing is cached (a later identical call prepares
again).  `prepares` counts `prepare` invocations, successful or not. -/
def lookupOrCompile {Db : Type} (prep : PrepareFn Db) (sql : String)
    (st : ServiceState Db) : StmtFetch Db :=
  match st.statementCache.lookup sql with
  | some stmt => .compiled stmt st
  | none =>
      if sql ∈ objectProtoKeys then .notFunction st
      else
        match prep sql st.db with
        | .ok _ =>
            .compiled ⟨sql, st.nextStmtId⟩
              { st with statementCache :=
                          (sql, ⟨sql, st.nextStmtId⟩) :: st.statementCache,
                        nextStmtId := st.nextStmtId + 1,
                        prepares := st.prepares + 1 }
        | .error err => .prepareError err { st with prepares := st.prepares + 1 }

/-- The real service's `get` (SQLite.ts lines 90-103): coerce the parameters,
fetch or compile the statement, execute it, and return the first row
(`undefined`, i.e. `none`, when there is no row); every raised error
(TypeError on an inherited cache value, compilation failure, execution
failure) is logged and re-raised, leaving the state the step produced. -/
def svcGet {Db : Type} (prep : PrepareFn Db) (exec : ExecFn Db) (sql : String)
    (params : Params) (st : ServiceState Db) :
    Except String (Option Row) × ServiceState Db :=
  let parameters := coerceParams params
  match lookupOrCompile prep sql st with
  | .compiled stmt st1 =>
      match exec stmt.sql parameters st1.db with
      | .ok out => (.ok out.rows.head?, { st1 with db := out.db })
      | .error err => (.error err, st1)
  | .notFunction st1 => (.error typeErrorMsg, st1)
  | .prepareError err st1 => (.error err, st1)

/-- The real service's `all` (SQLite.ts lines 111-124): same path as `get`,
returning every row. -/
def svcAll {Db : Type} (prep : PrepareFn Db) (exec : ExecFn Db) (sql : String)
    (params : Params) (st : ServiceState Db) :
    Except String (List Row) × ServiceState Db :=
  let parameters := coerceParams params
  match lookupOrCompile prep sql st with
  | .compiled stmt st1 =>
      match exec stmt.sql parameters st1.db with
      | .ok out => (.ok out.rows, { st1 with db := out.db })
      | .error err => (.error err, st1)
  | .notFunction st1 => (.error typeErrorMsg, st1)
  | .prepareError err st1 => (.error err, st1)

/-- The real service's `run` (SQLite.ts lines 132-145): same path, returning
`{ changes, lastInsertRowid }`. -/
def svcRun {Db : Type} (prep : PrepareFn Db) (exec : ExecFn Db) (sql : String)
    (params : Params) (st : ServiceState Db) :
    Except String RunResult × ServiceState Db :=
  let parameters := coerceParams params
  match lookupOrCompile prep sql st with
  | .compiled stmt st1 =>
      match exec stmt.sql parameters st1.db with
      | .ok out => (.ok ⟨out.changes, out.lastInsertRowid⟩, { st1 with db := out.db })
      | .error err => (.error err, st1)
  | .notFunction st1 => (.error typeErrorMsg, st1)
  | .prepareError err st1 => (.error err, st1)

/-- The real service's `transaction(fn)` (SQLite.ts lines 152-158), composed
with the better-sqlite3 `db.transaction` wrapper it delegates to: `fn` runs
against the service handle inside BEGIN/COMMIT; a normal return commits the
state `fn` produced, a raise is propagated after ROLLBACK, which restores the
database contents to their value before the call (the in-process statement
cache and counters are JavaScript objects and survive the rollback). -/
def svcTransaction {Db α : Type}
    (fn : ServiceState Db → Except String α × ServiceState Db)
    (st : ServiceState Db) : Except String α × ServiceState Db :=
  match fn st with
  | (.ok a, st') => (.ok a, st')
  | (.error err, st') => (.error err, { st' with db := st.db })

/-- One invocation of a data operation of the real service, used to state
properties uniformly over `get`, `all` and `run`. -/
inductive NativeOp where
  | get (sql : String) (params : Params)
  | all (sql : String) (params : Params)
  | run (sql : String) (params : Params)
deriving Repr, DecidableEq

/-- The SQL text of a data operation. -/
def NativeOp.sqlText : NativeOp → String
  | .get s _ => s
  | .all s _ => s
  | .run s _ => s

/-- The service state after one data operation. -/
def applyNativeOp {Db : Type} (prep : PrepareFn Db) (exec : ExecFn Db) :
    NativeOp → ServiceState Db → ServiceState Db
  | .get s p, st => (svcGet prep exec s p st).2
  | .all s p, st => (svcAll prep exec s p st).2
  | .run s p, st => (svcRun prep exec s p st).2

/-- Stub `get` (SQLite.ts line 39): raises unconditionally. -/
def stubGet (e : Env) (sql : String) (params : Params) :
    Except String (Option Row) :=
  .error (stubErrorMsg e)

/-- Stub `all` (SQLite.ts line 40): raises unconditionally. -/
def stubAll (e : Env) (sql : String) (params : Params) :
    Except String (List Row) :=
  .error (stubErrorMsg e)

/-- Stub `run` (SQLite.ts line 41): raises unconditionally. -/
def stubRun (e : Env) (sql : String) (params : Params) :
    Except String RunResult :=
  .error (stubErrorMsg e)

/-- Stub `transaction` (SQLite.ts line 42): raises unconditionally. -/
def stubTransaction (e : Env) {α : Type} (fn : α) : Except String α :=
  .error (stubErrorMsg e)

/-- Stub `getDatabase` (SQLite.ts line 43): returns `null`. -/
def stubGetDatabase : Option Unit :=
  none

/-- A trivial concrete engine for evaluating the service model: every
statement succeeds, returns no rows and leaves the database unchanged. -/
def noopExec : ExecFn Nat :=
  fun _ _ db => .ok ⟨db, [], 0, 0⟩

/-- A concrete compile step for which every statement prepares successfully. -/
def okPrepare : PrepareFn Nat :=
  fun _ _ => .ok ()

/-! ### Shared lemmas about the statement cache step -/

/-- The post-state of any data operation has the cache fields produced by the
shared lookup-or-compile step; execution only touches the database contents. -/
theorem applyNativeOp_cacheFields {Db : Type} (prep : PrepareFn Db)
    (exec : ExecFn Db) (op : NativeOp) (st : ServiceState Db) :
    (applyNativeOp prep exec op st).statementCache =
        (lookupOrCompile prep op.sqlText st).state.statementCache ∧
      (applyNativeOp prep exec op st).prepares =
        (lookupOrCompile prep op.sqlText st).state.prepares ∧
      (applyNativeOp prep exec op st).nextStmtId =
        (lookupOrCompile prep op.sqlText st).state.nextStmtId := by
  cases op with
  | get s p =>
      simp only [applyNativeOp, svcGet, NativeOp.sqlText]
      cases lookupOrCompile prep s st with
      | compiled stmt st1 =>
          refine ⟨?_, ?_, ?_⟩ <;> (simp only [StmtFetch.state]; split <;> rfl)
      | notFunction st1 => exact ⟨rfl, rfl, rfl⟩
      | prepareError err st1 => exact ⟨rfl, rfl, rfl⟩
  | all s p =>
      simp only [applyNativeOp, svcAll, NativeOp.sqlText]
      cases lookupOrCompile prep s st with
      | compiled stmt st1 =>
          refine ⟨?_, ?_, ?_⟩ <;> (simp only [StmtFetch.state]; split <;> rfl)
      | notFunction st1 => exact ⟨rfl, rfl, rfl⟩
      | prepareError err st1 => exact ⟨rfl, rfl, rfl⟩
  | run s p =>
      simp only [applyNativeOp, svcRun, NativeOp.sqlText]
      cases lookupOrCompile prep s st with
      | compiled stmt st1 =>
          refine ⟨?_, ?_, ?_⟩ <;> (simp only [StmtFetch.state]; split <;> rfl)
      | notFunction st1 => exact ⟨rfl, rfl, rfl⟩
      | prepareError err st1 => exact ⟨rfl, rfl, rfl⟩

/-- A cache hit returns the stored statement and leaves the state untouched. -/
theorem lookupOrCompile_hit {Db : Type} (prep : PrepareFn Db) (sql : String)
    (st : ServiceState Db) (stmt : Stmt)
    (h : st.statementCache.lookup sql = some stmt) :
    lookupOrCompile prep sql st = .compiled stmt st := by
  simp [lookupOrCompile, h]

/-- A miss on an ordinary key whose compilation succeeds stores a fresh
statement under the exact SQL text and bumps the invocation counter. -/
theorem lookupOrCompile_miss {Db : Type} (prep : PrepareFn Db) (sql : String)
    (st : ServiceState Db) (h : st.statementCache.lookup sql = none)
    (hk : sql ∉ objectProtoKeys) (hp : prep sql st.db = .ok ()) :
    lookupOrCompile prep sql st =
      .compiled ⟨sql, st.nextStmtId⟩
        { st with statementCache := (sql, ⟨sql, st.nextStmtId⟩) :: st.statementCache,
                  nextStmtId := st.nextStmtId + 1,
                  prepares := st.prepares + 1 } := by
  simp [lookupOrCompile, h, hk, hp]

/-- A miss on a key inherited from `Object.prototype` skips compilation and
stores nothing: the truthy inherited member is "found". -/
theorem lookupOrCompile_protoKey {Db : Type} (prep : PrepareFn Db) (sql : String)
    (st : ServiceState Db) (h : st.statementCache.lookup sql = none)
    (hk : sql ∈ objectProtoKeys) :
    lookupOrCompile prep sql st = .notFunction st := by
  simp [lookupOrCompile, h, hk]

/-- A miss whose compilation fails stores nothing; only the invocation
counter records the attempt. -/
theorem lookupOrCompile_prepFail {Db : Type} (prep : PrepareFn Db) (sql : String)
    (st : ServiceState Db) (err : String)
    (h : st.statementCache.lookup sql = none) (hk : sql ∉ objectProtoKeys)
    (hp : prep sql st.db = .error err) :
    lookupOrCompile prep sql st =
      .prepareError err { st with prepares := st.prepares + 1 } := by
  simp [lookupOrCompile, h, hk, hp]

/-- Whatever the outcome, the cache either is unchanged or gained exactly the
one entry for the looked-up text. -/
theorem lookupOrCompile_cache_cases {Db : Type} (prep : PrepareFn Db)
    (sql : String) (st : ServiceState Db) :
    (lookupOrCompile prep sql st).state.statementCache = st.statementCache ∨
      (st.statementCache.lookup sql = none ∧
        (lookupOrCompile prep sql st).state.statementCache =
          (sql, ⟨sql, st.nextStmtId⟩) :: st.statementCache) := by
  cases h : st.statementCache.lookup sql with
  | some stmt =>
      left
      rw [lookupOrCompile_hit prep sql st stmt h]
  | none =>
      by_cases hk : sql ∈ objectProtoKeys
      · left
        rw [lookupOrCompile_protoKey prep sql st h hk]
      · cases hp : prep sql st.db with
        | ok u =>
            right
            refine ⟨rfl, ?_⟩
            cases u
            rw [lookupOrCompile_miss prep sql st h hk hp]
        | error err =>
            left
            rw [lookupOrCompile_prepFail prep sql st err h hk hp]

/-- When compilation of a fresh ordinary key fails, the whole operation
leaves the state unchanged apart from the recorded invocation. -/
theorem applyNativeOp_prepFail {Db : Type} (prep : PrepareFn Db)
    (exec : ExecFn Db) (op : NativeOp) (st : ServiceState Db) (err : String)
    (h : st.statementCache.lookup op.sqlText = none)
    (hk : op.sqlText ∉ objectProtoKeys)
    (hp : prep op.sqlText st.db = .error err) :
    applyNativeOp prep exec op st = { st with prepares := st.prepares + 1 } := by
  have hl := lookupOrCompile_prepFail prep op.sqlText st err h hk hp
  cases op with
  | get s p =>
      simp only [NativeOp.sqlText] at hl
      simp only [applyNativeOp, svcGet]
      rw [hl]
  | all s p =>
      simp only [NativeOp.sqlText] at hl
      simp only [applyNativeOp, svcAll]
      rw [hl]
  | run s p =>
      simp only [NativeOp.sqlText] at hl
      simp only [applyNativeOp, svcRun]
      rw [hl]

/-! ### Claims -/

/-- Claim C7: for every assignment of the environment variables (including
`DB_CLIENT=pg` and any `DB_FILENAME`), the test stage's descriptor resolves to
the embedded engine client with the fixed file path `./data/test.sqlite3`. -/
theorem test_stage_hardcoded_embedded (e : Env) :
    knexConfig e "test" =
      some { client := "better-sqlite3",
             connection := .file "./data/test.sqlite3",
             pool := none, useNullAsDefault := true,
             migrationsDirectory := "./migrations" } :=
  rfl

/-- Claim C10: for every environment, the development and production stages
resolve to structurally identical backend descriptors (same client, connection
parameters, pool bounds and uses-null-as-default flag), so this configuration
cannot give development and production different backends in one process. -/
theorem dev_prod_descriptors_identical (e : Env) :
    knexConfig e "development" = knexConfig e "production" :=
  rfl

/-- Claim C9: for every call to the native service's `get`, `all` or `run`, an
array `params` argument is passed through unchanged as positional parameters,
and a non-array mapping is coerced to the ordered sequence of just its values
in enumeration order before binding. -/
theorem param_coercion_semantics {Db : Type} (prep : PrepareFn Db)
    (exec : ExecFn Db) (sql : String) (vs : List Value)
    (kvs : List (String × Value)) (st : ServiceState Db) :
    coerceParams (Params.arr vs) = vs ∧
    coerceParams (Params.obj kvs) = kvs.map Prod.snd ∧
    svcGet prep exec sql (Params.obj kvs) st =
      svcGet prep exec sql (Params.arr (kvs.map Prod.snd)) st ∧
    svcAll prep exec sql (Params.obj kvs) st =
      svcAll prep exec sql (Params.arr (kvs.map Prod.snd)) st ∧
    svcRun prep exec sql (Params.obj kvs) st =
      svcRun prep exec sql (Params.arr (kvs.map Prod.snd)) st :=
  ⟨rfl, rfl, rfl, rfl, rfl⟩

/-- Claim C5: if the unit of work `fn` completes normally, `transaction`
returns `fn`'s result and the state `fn` produced is committed; if `fn`
raises, the error propagates to the caller and the database contents after
the call are exactly those before it. -/
theorem transaction_atomicity {Db α : Type}
    (fn : ServiceState Db → Except String α × ServiceState Db)
    (st st' : ServiceState Db) :
    (∀ a : α, fn st = (.ok a, st') → svcTransaction fn st = (.ok a, st')) ∧
    (∀ err : String, fn st = (.error err, st') →
      (svcTransaction fn st).1 = .error err ∧
      (svcTransaction fn st).2.db = st.db) := by
  constructor
  · intro a h
    simp [svcTransaction, h]
  · intro err h
    simp [svcTransaction, h]

/-- Claim C5 witness: a committing unit of work and a raising one, evaluated
at concrete states. -/
theorem transaction_atomicity_witness :
    svcTransaction
        (fun s : ServiceState Nat => ((.ok 7 : Except String Nat), { s with db := 9 }))
        ⟨0, [], 0, 0⟩ =
        (.ok 7, ⟨9, [], 0, 0⟩) ∧
      (svcTransaction
          (fun s : ServiceState Nat =>
            ((.error "boom" : Except String Nat), { s with db := s.db + 5 }))
          ⟨0, [], 0, 0⟩).1 = .error "boom" ∧
      (svcTransaction
          (fun s : ServiceState Nat =>
            ((.error "boom" : Except String Nat), { s with db := s.db + 5 }))
          ⟨0, [], 0, 0⟩).2.db = 0 := by
  refine ⟨?_, ?_⟩
  · exact (transaction_atomicity
      (fun s : ServiceState Nat => ((.ok 7 : Except String Nat), { s with db := 9 }))
      ⟨0, [], 0, 0⟩ ⟨9, [], 0, 0⟩).1 7 rfl
  · exact (transaction_atomicity
      (fun s : ServiceState Nat =>
        ((.error "boom" : Except String Nat), { s with db := s.db + 5 }))
      ⟨0, [], 0, 0⟩ ⟨5, [], 0, 0⟩).2 "boom" rfl

/-- Claim C1: the native service's `isAvailable` flag is true iff the active
stage's (selected by `DB_CONNECTION`, default development) resolved client is
the embedded engine; when it is false every call to `get`, `all`, `run` or
`transaction` raises immediately with the fixed message naming the actual
active client and pointing at the DB service, and the stub's `getDatabase`
returns `null`. -/
theorem native_service_availability (e : Env) :
    (serviceIsAvailable e = true ↔
      (clientType e = some "better-sqlite3" ∨ clientType e = some "sqlite3")) ∧
    (serviceIsAvailable e = false →
      (∀ sql params, stubGet e sql params = .error (stubErrorMsg e)) ∧
      (∀ sql params, stubAll e sql params = .error (stubErrorMsg e)) ∧
      (∀ sql params, stubRun e sql params = .error (stubErrorMsg e)) ∧
      (∀ fn : Unit, stubTransaction e fn = .error (stubErrorMsg e)) ∧
      stubGetDatabase = none) ∧
    stubErrorMsg e = "SQLite service is not available with " ++ clientTypeStr e ++
      " client. Use DB service instead." := by
  refine ⟨?_, ?_, rfl⟩
  · simp [serviceIsAvailable, isSQLiteClient]
  · intro h
    exact ⟨fun _ _ => rfl, fun _ _ => rfl, fun _ _ => rfl, fun _ => rfl, rfl⟩

/-- Claim C1 witness: with `DB_CLIENT=mysql2` the service is unavailable, the
stub's `get` raises, and the message names the mysql2 client. -/
theorem native_service_availability_witness :
    serviceIsAvailable { defaultEnv with DB_CLIENT := some "mysql2" } = false ∧
      stubGet { defaultEnv with DB_CLIENT := some "mysql2" } "SELECT 1"
          (Params.arr []) =
        .error "SQLite service is not available with mysql2 client. Use DB service instead." := by
  have h := native_service_availability { defaultEnv with DB_CLIENT := some "mysql2" }
  refine ⟨by decide, ?_⟩
  have hg := (h.2.1 (by decide)).1 "SELECT 1" (Params.arr [])
  rw [hg]
  rfl

/-- Claim C8: for every value of the `DB_CLIENT` token the resolver maps to
exactly one of the three backends and never errors: `pg`/`postgresql` map to
postgres, `mysql`/`mysql2` map to mysql, and `better-sqlite3`, `sqlite3`, any
unrecognized value or an absent token map to the embedded engine. -/
theorem client_token_resolution (e : Env) :
    (getClientName e = "pg" ∨ getClientName e = "mysql2" ∨
      getClientName e = "better-sqlite3") ∧
    ((dbClientTok e = "pg" ∨ dbClientTok e = "postgresql") →
      getClientName e = "pg") ∧
    ((dbClientTok e = "mysql" ∨ dbClientTok e = "mysql2") →
      getClientName e = "mysql2") ∧
    (dbClientTok e ≠ "pg" → dbClientTok e ≠ "postgresql" →
      dbClientTok e ≠ "mysql" → dbClientTok e ≠ "mysql2" →
      getClientName e = "better-sqlite3") ∧
    (e.DB_CLIENT = none → getClientName e = "better-sqlite3") := by
  refine ⟨?_, ?_, ?_, ?_, ?_⟩
  · by_cases h1 : dbClientTok e = "pg" ∨ dbClientTok e = "postgresql"
    · left
      unfold getClientName
      rw [if_pos h1]
    · by_cases h2 : dbClientTok e = "mysql" ∨ dbClientTok e = "mysql2"
      · right; left
        unfold getClientName
        rw [if_neg h1, if_pos h2]
      · right; right
        unfold getClientName
        rw [if_neg h1, if_neg h2]
  · intro h
    unfold getClientName
    rw [if_pos h]
  · intro h
    have h1 : ¬(dbClientTok e = "pg" ∨ dbClientTok e = "postgresql") := by
      rcases h with h | h <;> rw [h] <;> decide
    unfold getClientName
    rw [if_neg h1, if_pos h]
  · intro a b c d
    unfold getClientName
    rw [if_neg (not_or.mpr ⟨a, b⟩), if_neg (not_or.mpr ⟨c, d⟩)]
  · intro h
    have ht : dbClientTok e = "better-sqlite3" := by
      simp [dbClientTok, jsOr, h]
    unfold getClientName
    rw [ht]
    decide

/-- Claim C8 witness: `postgresql` normalizes to `pg`, the unrecognized token
`foo` falls back to the embedded engine. -/
theorem client_token_resolution_witness :
    getClientName { defaultEnv with DB_CLIENT := some "postgresql" } = "pg" ∧
      getClientName { defaultEnv with DB_CLIENT := some "foo" } = "better-sqlite3" := by
  constructor
  · exact (client_token_resolution
      { defaultEnv with DB_CLIENT := some "postgresql" }).2.1 (Or.inr (by decide))
  · exact (client_token_resolution
      { defaultEnv with DB_CLIENT := some "foo" }).2.2.2.1
      (by decide) (by decide) (by decide) (by decide)

/-- Claim C4 counterexample: the first call with the SQL text `toString`
(an `Object.prototype` property name) does not compile or store anything —
the truthy inherited member short-circuits the `if (!stmt)` guard, zero
prepare invocations happen, the cache stays empty and the call raises a
TypeError — refuting "for every SQL string, the first call compiles the
statement and stores it". -/
theorem statement_cache_counterexample :
    (svcGet okPrepare noopExec "toString" (Params.arr []) ⟨0, [], 0, 0⟩).1 =
        .error typeErrorMsg ∧
      (svcGet okPrepare noopExec "toString" (Params.arr [])
          ⟨0, [], 0, 0⟩).2.statementCache.lookup "toString" = none ∧
      (svcGet okPrepare noopExec "toString" (Params.arr [])
          ⟨0, [], 0, 0⟩).2.prepares = 0 := by
  refine ⟨rfl, rfl, rfl⟩

/-- Claim C4 (amended): `get`, `all` and `run` share one prepared-statement
cache keyed by exact SQL text, with two carve-outs the implementation forces:
for an ordinary text whose compilation succeeds, the first call compiles the
statement and stores it under that exact text, any later call with the
byte-identical text (by any of the three operations) reuses it without
re-preparing, no entry is ever evicted, and a textually different key is
untouched; when compilation of a fresh text fails, nothing is stored and a
later byte-identical call invokes the compiler again; when the text is an
`Object.prototype` property name, the truthy inherited cache value means
nothing is ever compiled or stored under that text. -/
theorem statement_cache_behavior {Db : Type} (prep : PrepareFn Db)
    (exec : ExecFn Db) (op : NativeOp) (st : ServiceState Db) :
    (st.statementCache.lookup op.sqlText = none →
      op.sqlText ∉ objectProtoKeys →
      prep op.sqlText st.db = .ok () →
      (applyNativeOp prep exec op st).statementCache.lookup op.sqlText =
          some ⟨op.sqlText, st.nextStmtId⟩ ∧
        (applyNativeOp prep exec op st).prepares = st.prepares + 1) ∧
    (∀ stmt, st.statementCache.lookup op.sqlText = some stmt →
      (applyNativeOp prep exec op st).statementCache = st.statementCache ∧
        (applyNativeOp prep exec op st).prepares = st.prepares) ∧
    (∀ q stmt, st.statementCache.lookup q = some stmt →
      (applyNativeOp prep exec op st).statementCache.lookup q = some stmt) ∧
    (∀ q, q ≠ op.sqlText →
      (applyNativeOp prep exec op st).statementCache.lookup q =
        st.statementCache.lookup q) ∧
    (∀ op2 : NativeOp, op2.sqlText = op.sqlText →
      st.statementCache.lookup op.sqlText = none →
      op.sqlText ∉ objectProtoKeys →
      prep op.sqlText st.db = .ok () →
      (applyNativeOp prep exec op2 (applyNativeOp prep exec op st)).prepares =
        (applyNativeOp prep exec op st).prepares) ∧
    (∀ err, st.statementCache.lookup op.sqlText = none →
      op.sqlText ∉ objectProtoKeys →
      prep op.sqlText st.db = .error err →
      (applyNativeOp prep exec op st).statementCache = st.statementCache ∧
        (applyNativeOp prep exec op st).prepares = st.prepares + 1 ∧
        (∀ op2 : NativeOp, op2.sqlText = op.sqlText →
          (applyNativeOp prep exec op2
              (applyNativeOp prep exec op st)).prepares = st.prepares + 2)) ∧
    (st.statementCache.lookup op.sqlText = none →
      op.sqlText ∈ objectProtoKeys →
      (applyNativeOp prep exec op st).statementCache = st.statementCache ∧
        (applyNativeOp prep exec op st).prepares = st.prepares) := by
  obtain ⟨hc, hp', hn⟩ := applyNativeOp_cacheFields prep exec op st
  refine ⟨?_, ?_, ?_, ?_, ?_, ?_, ?_⟩
  · intro h hk hpOk
    have hl := lookupOrCompile_miss prep op.sqlText st h hk hpOk
    constructor
    · rw [hc, hl]
      simp [StmtFetch.state, List.lookup]
    · rw [hp', hl]
  · intro stmt h
    have he := lookupOrCompile_hit prep op.sqlText st stmt h
    exact ⟨by rw [hc, he], by rw [hp', he]⟩
  · intro q stmt h
    rcases lookupOrCompile_cache_cases prep op.sqlText st with hcc | ⟨hnone, hcc⟩
    · rw [hc, hcc]
      exact h
    · rw [hc, hcc]
      by_cases hq : q = op.sqlText
      · subst hq
        rw [h] at hnone
        cases hnone
      · have hbeq : (q == op.sqlText) = false := beq_eq_false_iff_ne.mpr hq
        simpa [List.lookup, hbeq] using h
  · intro q hq
    rcases lookupOrCompile_cache_cases prep op.sqlText st with hcc | ⟨hnone, hcc⟩
    · rw [hc, hcc]
    · rw [hc, hcc]
      have hbeq : (q == op.sqlText) = false := beq_eq_false_iff_ne.mpr hq
      simp [List.lookup, hbeq]
  · intro op2 hsql h hk hpOk
    obtain ⟨hc2, hp2, _⟩ :=
      applyNativeOp_cacheFields prep exec op2 (applyNativeOp prep exec op st)
    have hl := lookupOrCompile_miss prep op.sqlText st h hk hpOk
    have hsome : (applyNativeOp prep exec op st).statementCache.lookup
        op2.sqlText = some ⟨op.sqlText, st.nextStmtId⟩ := by
      rw [hsql, hc, hl]
      simp [StmtFetch.state, List.lookup]
    rw [hp2, lookupOrCompile_hit prep op2.sqlText _ _ hsome]
  · intro err h hk hpErr
    have h1 := applyNativeOp_prepFail prep exec op st err h hk hpErr
    refine ⟨by rw [h1], by rw [h1], ?_⟩
    intro op2 hsql
    rw [h1]
    have h2 := applyNativeOp_prepFail prep exec op2
      { st with prepares := st.prepares + 1 } err
      (by rw [hsql]; exact h) (by rw [hsql]; exact hk) (by rw [hsql]; exact hpErr)
    rw [h2]
  · intro h hk
    have hl := lookupOrCompile_protoKey prep op.sqlText st h hk
    exact ⟨by rw [hc, hl], by rw [hp', hl]⟩

/-- Claim C4 witness: starting from an empty cache, a `get` compiles and
stores the statement, and a subsequent `run` with the identical text does not
compile again. -/
theorem statement_cache_behavior_witness :
    ((applyNativeOp okPrepare noopExec
        (NativeOp.get "SELECT 1" (Params.arr [])) ⟨0, [], 0, 0⟩).statementCache.lookup
      "SELECT 1" = some ⟨"SELECT 1", 0⟩) ∧
    ((applyNativeOp okPrepare noopExec
        (NativeOp.get "SELECT 1" (Params.arr [])) ⟨0, [], 0, 0⟩).prepares = 1) ∧
    ((applyNativeOp okPrepare noopExec
        (NativeOp.run "SELECT 1" (Params.arr []))
        (applyNativeOp okPrepare noopExec
          (NativeOp.get "SELECT 1" (Params.arr [])) ⟨0, [], 0, 0⟩)).prepares =
      (applyNativeOp okPrepare noopExec
        (NativeOp.get "SELECT 1" (Params.arr [])) ⟨0, [], 0, 0⟩).prepares) := by
  have h := statement_cache_behavior okPrepare noopExec
    (NativeOp.get "SELECT 1" (Params.arr [])) ⟨0, [], 0, 0⟩
  exact ⟨(h.1 rfl (by decide) rfl).1, (h.1 rfl (by decide) rfl).2,
    h.2.2.2.2.1 (NativeOp.run "SELECT 1" (Params.arr [])) rfl rfl (by decide) rfl⟩

/-- Claim C2 counterexample: the four pragma settings are not each
independently best-effort — they share one try/catch, so when issuing the
first pragma fails (here: every `raw` call fails), only that first pragma is
ever issued and the remaining three are skipped, instead of all four being
attempted. -/
theorem pragma_not_independent_counterexample :
    (applyDatabaseOptimizations (knexConfig defaultEnv) (some "development")
        (fun _ => .error "disk I/O error")).1 = ["PRAGMA journal_mode = WAL"] ∧
      ["PRAGMA journal_mode = WAL"] ≠ pragmaList := by
  refine ⟨rfl, by decide⟩

/-- Claim C2 (amended): `applyDatabaseOptimizations` never raises; on an
active-stage entry whose client is not the embedded engine (or a missing
entry) it performs zero pragma calls; on an embedded entry it issues the four
pragmas in source order as one best-effort block — all four when none fails,
and a failure of the first pragma stops the block after that single call,
caught and converted into the logged warning. -/
theorem pragma_application (cfg : String → Option KnexStageConfig)
    (conn : Option String) (raw : String → Except String Unit) :
    ((∀ entry, conn.bind cfg = some entry →
        entry.client ≠ "better-sqlite3" ∧ entry.client ≠ "sqlite3") →
      applyDatabaseOptimizations cfg conn raw = ([], none)) ∧
    (∀ entry, conn.bind cfg = some entry →
      (entry.client = "better-sqlite3" ∨ entry.client = "sqlite3") →
      ((∀ p, raw p = .ok ()) →
        applyDatabaseOptimizations cfg conn raw = (pragmaList, none)) ∧
      (∀ msg, raw "PRAGMA journal_mode = WAL" = .error msg →
        applyDatabaseOptimizations cfg conn raw =
          (["PRAGMA journal_mode = WAL"],
           some ("Failed to apply SQLite PRAGMA: " ++ msg)))) := by
  constructor
  · intro h
    unfold applyDatabaseOptimizations
    cases hbc : conn.bind cfg with
    | none => rfl
    | some entry =>
        obtain ⟨h1, h2⟩ := h entry hbc
        show (if entry.client = "better-sqlite3" ∨ entry.client = "sqlite3" then
            runPragmaBlock raw pragmaList else ([], none)) = ([], none)
        rw [if_neg (not_or.mpr ⟨h1, h2⟩)]
  · intro entry hbc hcl
    constructor
    · intro hall
      unfold applyDatabaseOptimizations
      rw [hbc]
      show (if entry.client = "better-sqlite3" ∨ entry.client = "sqlite3" then
          runPragmaBlock raw pragmaList else ([], none)) = (pragmaList, none)
      rw [if_pos hcl]
      simp [pragmaList, runPragmaBlock, hall]
    · intro msg hmsg
      unfold applyDatabaseOptimizations
      rw [hbc]
      show (if entry.client = "better-sqlite3" ∨ entry.client = "sqlite3" then
          runPragmaBlock raw pragmaList else ([], none)) =
        (["PRAGMA journal_mode = WAL"],
         some ("Failed to apply SQLite PRAGMA: " ++ msg))
      rw [if_pos hcl]
      simp [pragmaList, runPragmaBlock, hmsg]

/-- Claim C2 witness: on the default embedded development stage with a
succeeding engine all four pragmas are issued in order with no warning; with
`DB_CLIENT=pg` no pragma call is made. -/
theorem pragma_application_witness :
    applyDatabaseOptimizations (knexConfig defaultEnv) (some "development")
        (fun _ => .ok ()) = (pragmaList, none) ∧
      applyDatabaseOptimizations
        (knexConfig { defaultEnv with DB_CLIENT := some "pg" })
        (some "development") (fun _ => .ok ()) = ([], none) := by
  constructor
  · have h := pragma_application (knexConfig defaultEnv) (some "development")
      (fun _ => .ok ())
    exact (h.2 ⟨"better-sqlite3", .file "./data/dev.sqlite3",
        some ⟨some 1, some 1, none, none⟩, true, "./migrations"⟩
      (by decide) (Or.inl rfl)).1 (fun p => rfl)
  · have h := pragma_application
      (knexConfig { defaultEnv with DB_CLIENT := some "pg" })
      (some "development") (fun _ => .ok ())
    refine h.1 ?_
    intro entry he
    have hentry : entry = ⟨"pg",
        .server "127.0.0.1" (some 5432) "postgres" "" "laju",
        some ⟨some 0, some 10, some 30000, some 30000⟩,
        false, "./migrations"⟩ := by
      have he' := he.symm.trans
        (show (some "development").bind
            (knexConfig { defaultEnv with DB_CLIENT := some "pg" }) =
          some ⟨"pg", .server "127.0.0.1" (some 5432) "postgres" "" "laju",
            some ⟨some 0, some 10, some 30000, some 30000⟩,
            false, "./migrations"⟩ from by decide)
      exact Option.some.inj he'
    rw [hentry]
    exact ⟨by decide, by decide⟩

/-- Claim C3 counterexample: the knexfile config is evaluated once at module
load; a stage request made after `DB_CLIENT` changed to `pg` still returns
the descriptor of the load-time environment, not what the resolver would
produce from the new environment. -/
theorem config_not_reevaluated_counterexample :
    requestStageConfig (loadKnexfile defaultEnv)
        { defaultEnv with DB_CLIENT := some "pg" } "development" ≠
      knexConfig { defaultEnv with DB_CLIENT := some "pg" } "development" := by
  decide

/-- Claim C3 (amended): the resolver is a pure function of the environment as
it stood at module initialization: every later request for a stage's
descriptor returns the load-time result, unaffected by the environment
current at request time — while the load-time environment itself does matter
(loading under `DB_CLIENT=pg` yields a different development descriptor). -/
theorem config_frozen_at_load (e0 e1 e2 : Env) (stage : String) :
    requestStageConfig (loadKnexfile e0) e1 stage = knexConfig e0 stage ∧
    requestStageConfig (loadKnexfile e0) e1 stage =
      requestStageConfig (loadKnexfile e0) e2 stage ∧
    requestStageConfig (loadKnexfile defaultEnv) defaultEnv "development" ≠
      requestStageConfig (loadKnexfile { defaultEnv with DB_CLIENT := some "pg" })
        defaultEnv "development" := by
  refine ⟨rfl, rfl, by decide⟩

/-- Claim C6 counterexample: with the unrecognized token `DB_CLIENT=foo` the
development stage's resolved client is the embedded engine, yet its pool is
the postgres/mysql-style `{min 0, max 10, 30000 ms timeouts}` rather than the
pinned `{min 1, max 1}` — `buildPoolConfig` branches on the raw token, not on
the resolved client. -/
theorem embedded_pool_counterexample :
    (knexConfig { defaultEnv with DB_CLIENT := some "foo" } "development").map
        (·.client) = some "better-sqlite3" ∧
      (knexConfig { defaultEnv with DB_CLIENT := some "foo" } "development").bind
          (·.pool) =
        some { min := some 0, max := some 10,
               acquireTimeoutMillis := some 30000,
               idleTimeoutMillis := some 30000 } ∧
      (knexConfig { defaultEnv with DB_CLIENT := some "foo" } "development").bind
          (·.pool) ≠
        some { min := some 1, max := some 1,
               acquireTimeoutMillis := none, idleTimeoutMillis := none } := by
  refine ⟨by decide, by decide, by decide⟩

/-- Claim C6 (amended): the pool is pinned to min=1, max=1 exactly when the
raw `DB_CLIENT` token is literally `better-sqlite3` or `sqlite3` (the absent
or empty token defaults to `better-sqlite3` and so is pinned too); for every
other token — `pg`, `mysql`, and also unrecognized tokens that still resolve
to the embedded client — the pool is min = parseInt(`DB_POOL_MIN`, default 0)
and max = parseInt(`DB_POOL_MAX`, default 10) with fixed 30000 ms acquire and
idle timeouts; development and production carry that pool, while the test
stage has no pool configuration at all. -/
theorem pool_policy (e : Env) :
    ((dbClientTok e = "better-sqlite3" ∨ dbClientTok e = "sqlite3") →
      buildPoolConfig e =
        { min := some 1, max := some 1,
          acquireTimeoutMillis := none, idleTimeoutMillis := none }) ∧
    (¬(dbClientTok e = "better-sqlite3" ∨ dbClientTok e = "sqlite3") →
      buildPoolConfig e =
        { min := parseIntJS (jsOr e.DB_POOL_MIN "0"),
          max := parseIntJS (jsOr e.DB_POOL_MAX "10"),
          acquireTimeoutMillis := some 30000,
          idleTimeoutMillis := some 30000 }) ∧
    (knexConfig e "development").bind (·.pool) = some (buildPoolConfig e) ∧
    (knexConfig e "production").bind (·.pool) = some (buildPoolConfig e) ∧
    (knexConfig e "test").map (·.pool) = some none := by
  refine ⟨?_, ?_, rfl, rfl, rfl⟩
  · intro h
    unfold buildPoolConfig
    rw [if_pos h]
  · intro h
    unfold buildPoolConfig
    rw [if_neg h]

/-- Claim C6 witness: the default embedded env is pinned to min=max=1; with
`DB_CLIENT=pg` and `DB_POOL_MAX=7` the pool honors the env with the fixed
timeouts. -/
theorem pool_policy_witness :
    buildPoolConfig defaultEnv =
        { min := some 1, max := some 1,
          acquireTimeoutMillis := none, idleTimeoutMillis := none } ∧
      buildPoolConfig
          { defaultEnv with DB_CLIENT := some "pg", DB_POOL_MAX := some "7" } =
        { min := some 0, max := some 7,
          acquireTimeoutMillis := some 30000, idleTimeoutMillis := some 30000 } := by
  constructor
  · exact (pool_policy defaultEnv).1 (Or.inl rfl)
  · have h := (pool_policy
      { defaultEnv with DB_CLIENT := some "pg", DB_POOL_MAX := some "7" }).2.1
      (by decide)
    rw [h]
    rfl

end Laju
